import Mathlib

/-!
Shallow embedding of the topic relevance resolution engine of `src/app.py`
(a small RAG chatbot).  External collaborators — the content fetcher
(`fetch_page_content`, a Notion client wrapper), the relevance oracle
(`check_content_relevance`'s LLM call plus JSON parse), and the answer
generator (`ask_groq`) — are passed in as function parameters; everything
downstream of them (candidate selection, the two-phase cascade, thresholds,
tie-breaking, prompt construction, response assembly) is translated
line-by-line from the source.
-/

/-- One image reference extracted from a document: `{url, caption}`. -/
structure ImageRef where
  url : String
  caption : String
deriving DecidableEq, Repr

/-- Normalized document content as returned by `fetch_page_content`:
flattened text plus image references. -/
structure DocumentContent where
  text : String
  images : List ImageRef
deriving DecidableEq, Repr

/-- A relevance verdict parsed from the oracle's JSON reply. -/
structure RelevanceVerdict where
  relevant : Bool
  confidence : Nat
  reason : String
deriving DecidableEq, Repr

/-- The topic catalog `NOTION_PAGES`: an ordered mapping topic name → page URL
(Python dict preserves insertion order, so a list of pairs). -/
abbrev Catalog := List (String × String)

/-- The content fetcher boundary: page id → fetched content. -/
abbrev Fetcher := String → DocumentContent

/-- The relevance-oracle boundary: (query, text preview) → parsed verdict,
`none` when the LLM reply fails to parse (the `except` branch in
`check_content_relevance`). -/
abbrev Oracle := String → String → Option RelevanceVerdict

/-- The completion client boundary `ask_groq`: prompt → generated answer. -/
abbrev AskFn := String → String

/-- Python's `s.split("-")` on a character list: split at every dash, keeping
empty pieces; the result is always non-empty. -/
def splitOnDash : List Char → List (List Char)
  | [] => [[]]
  | c :: cs =>
    if c = '-' then [] :: splitOnDash cs
    else
      match splitOnDash cs with
      | [] => [[c]]
      | piece :: rest => (c :: piece) :: rest

/-- `extract_page_id`: `url.split("-")[-1]`. -/
def extract_page_id (url : String) : String :=
  String.mk ((splitOnDash url.toList).getLastD [])

/-- Does the character list start with the pattern? -/
def charsHaveStart (pat : List Char) : List Char → Bool :=
  match pat with
  | [] => fun _ => true
  | p :: ps => fun s =>
    match s with
    | [] => false
    | c :: cs => p = c && charsHaveStart ps cs

/-- Python's substring test `pat in s`, on character lists. -/
def charsContain (pat : List Char) : List Char → Bool
  | [] => charsHaveStart pat []
  | c :: cs => charsHaveStart pat (c :: cs) || charsContain pat cs

/-- Python's `str.lower()` on a character list. -/
def charsLower (s : List Char) : List Char :=
  s.map Char.toLower

/-- `find_relevant_topics`: all topics whose lower-cased name occurs as a
substring of the lower-cased query, in catalog order. -/
def find_relevant_topics (catalog : Catalog) (query : String) : List String :=
  let query_lower := charsLower query.toList
  (catalog.filter (fun p => charsContain (charsLower p.1.toList) query_lower)).map Prod.fst

/-- `check_content_relevance`: submit (query, first 1500 characters of the
text) to the oracle; degrade an unparseable reply to the fixed verdict of the
`except` branch. -/
def check_content_relevance (oracle : Oracle) (query : String)
    (content : DocumentContent) : RelevanceVerdict :=
  let text_preview := content.text.take 1500
  match oracle query text_preview with
  | some result => result
  | none => { relevant := false, confidence := 0, reason := "Failed to parse relevance" }

/-- The `best_match` record tracked by `search_all_topics`. -/
structure BestMatch where
  topic : String
  content : DocumentContent
  confidence : Nat
deriving DecidableEq, Repr

/-- Loop state of `search_all_topics`: `best_match`, `best_confidence`,
`all_contents`. -/
structure SearchState where
  best_match : Option BestMatch
  best_confidence : Nat
  all_contents : List (String × DocumentContent)
deriving Repr

/-- One iteration of the `for topic, url in NOTION_PAGES.items()` loop of
`search_all_topics`. -/
def search_step (fetch : Fetcher) (oracle : Oracle) (query : String)
    (st : SearchState) (entry : String × String) : SearchState :=
  let page_id := extract_page_id entry.2
  let content := fetch page_id
  if content.text ≠ "" then
    let relevance := check_content_relevance oracle query content
    if relevance.relevant ∧ st.best_confidence < relevance.confidence then
      { best_match := some ⟨entry.1, content, relevance.confidence⟩,
        best_confidence := relevance.confidence,
        all_contents := st.all_contents ++ [(entry.1, content)] }
    else
      { st with all_contents := st.all_contents ++ [(entry.1, content)] }
  else
    st

/-- `search_all_topics`: scan the whole catalog, tracking the single best
relevant verdict by strictly greater confidence. -/
def search_all_topics (fetch : Fetcher) (oracle : Oracle) (catalog : Catalog)
    (query : String) : Option BestMatch × List (String × DocumentContent) :=
  let final := catalog.foldl (search_step fetch oracle query)
    { best_match := none, best_confidence := 0, all_contents := [] }
  (final.best_match, final.all_contents)

/-- The grounding prompt of the keyword-match branch of `chat`
(lines 176–191 of `src/app.py`). -/
def keyword_prompt (topic : String) (content : DocumentContent)
    (query : String) : String :=
  "\nYou are a helpful assistant for Omnivoltaic\x27s internal documentation.\n\nContext from \x27" ++
  topic ++
  "\x27 documentation:\n" ++
  content.text.take 7000 ++
  "\n\nUser Question: " ++
  query ++
  "\n\nInstructions:\n- Answer ONLY if the documentation contains relevant information\n- If the question cannot be answered from this documentation, clearly state: \"I don\x27t have information about that in the documentation.\"\n- Be specific and cite relevant details from the documentation\n- Keep responses clear and concise\n- If procedures or steps are involved, present them clearly\n- If there are images in the documentation that would help answer the question, mention that visual references are available\n"

/-- The grounding prompt of the semantic-search branch of `chat`
(lines 206–219 of `src/app.py`). -/
def semantic_prompt (topic : String) (content : DocumentContent)
    (query : String) : String :=
  "\nYou are a helpful assistant for Omnivoltaic\x27s internal documentation.\n\nContext from \x27" ++
  topic ++
  "\x27 documentation:\n" ++
  content.text.take 7000 ++
  "\n\nUser Question: " ++
  query ++
  "\n\nInstructions:\n- Answer based on the documentation provided\n- Be specific and cite relevant details\n- Keep responses clear and concise\n- If there are images in the documentation that would help answer the question, mention that visual references are available\n"

/-- The fallback prompt of the no-match branch of `chat`
(lines 231–243 of `src/app.py`). -/
def fallback_prompt (query : String) (available_topics : List String) : String :=
  "\nThe user asked: \"" ++
  query ++
  "\"\n\nUnfortunately, this question cannot be answered from the available documentation topics: " ++
  String.intercalate ", " available_topics ++
  ".\n\nProvide a helpful response that:\n1. Acknowledges you don\x27t have documentation about this specific topic\n2. Lists what documentation IS available\n3. Suggests they contact support or rephrase their question\n4. Be friendly and professional\n\nDo NOT make up information or pretend to know the answer.\n"

/-- Phase 1 of `chat`: the `for topic in relevant_topics` loop, returning on
the first candidate with a relevant verdict of confidence > 60 the data its
response is built from. -/
def phase1_search (fetch : Fetcher) (oracle : Oracle) (catalog : Catalog)
    (query : String) : List String → Option (String × DocumentContent × Nat)
  | [] => none
  | topic :: rest =>
    let page_id := extract_page_id ((catalog.lookup topic).getD "")
    let content_data := fetch page_id
    if content_data.text ≠ "" then
      let relevance := check_content_relevance oracle query content_data
      if relevance.relevant ∧ 60 < relevance.confidence then
        some (topic, content_data, relevance.confidence)
      else
        phase1_search fetch oracle catalog query rest
    else
      phase1_search fetch oracle catalog query rest

/-- The resolution outcome of the cascade (spec §3). -/
inductive ResolutionOutcome where
  | keywordMatch (topic : String) (content : DocumentContent) (confidence : Nat)
  | semanticMatch (topic : String) (content : DocumentContent) (confidence : Nat)
  | noMatch (availableTopics : List String)
deriving DecidableEq, Repr

/-- The part of `chat` after the keyword loop: accept `search_all_topics`'s
best match when its confidence is > 50, otherwise no match. -/
def phase2_result (fetch : Fetcher) (oracle : Oracle) (catalog : Catalog)
    (query : String) : ResolutionOutcome :=
  match (search_all_topics fetch oracle catalog query).1 with
  | some bm =>
    if 50 < bm.confidence then .semanticMatch bm.topic bm.content bm.confidence
    else .noMatch (catalog.map Prod.fst)
  | none => .noMatch (catalog.map Prod.fst)

/-- The full resolution cascade of `chat`: keyword-guided phase 1, then
exhaustive phase 2. -/
def resolve (fetch : Fetcher) (oracle : Oracle) (catalog : Catalog)
    (query : String) : ResolutionOutcome :=
  match phase1_search fetch oracle catalog query (find_relevant_topics catalog query) with
  | some (topic, content_data, confidence) => .keywordMatch topic content_data confidence
  | none => phase2_result fetch oracle catalog query

/-- The JSON response of the `/api/chat` route: either the 400 error reply or
a success body (`available_topics` is present only in the no-match body). -/
inductive ChatResult where
  | clientError (msg : String) (status : Nat)
  | answer (topic : Option String) (response : String) (confidence : Nat)
      (source : String) (images : List ImageRef)
      (available_topics : Option (List String))
deriving DecidableEq, Repr

/-- Response assembly of `chat`: build the grounding (or fallback) prompt from
the outcome, call the completion client, and package the JSON body. -/
def compose (ask : AskFn) (query : String) : ResolutionOutcome → ChatResult
  | .keywordMatch topic content confidence =>
    .answer (some topic) (ask (keyword_prompt topic content query)) confidence
      "keyword_match" content.images none
  | .semanticMatch topic content confidence =>
    .answer (some topic) (ask (semantic_prompt topic content query)) confidence
      "semantic_search" content.images none
  | .noMatch topics =>
    .answer none (ask (fallback_prompt query topics)) 0 "no_match" [] (some topics)

/-- The `/api/chat` handler: reject an absent or empty query with a 400
error, otherwise resolve and compose.  (`query = none` models a JSON body
without a `"query"` key; Python's `if not query` also catches `""`.) -/
def chat (fetch : Fetcher) (oracle : Oracle) (ask : AskFn) (catalog : Catalog) :
    Option String → ChatResult
  | none => .clientError "No query provided" 400
  | some query =>
    if query = "" then .clientError "No query provided" 400
    else compose ask query (resolve fetch oracle catalog query)

/-- Projection of the tracked best match to the data the response can depend
on apart from images: topic, text, confidence. -/
def bestKey : Option BestMatch → Option (String × String × Nat)
  | none => none
  | some b => some (b.topic, b.content.text, b.confidence)

/-- Two chat responses agree on every field except the image list. -/
def eqUpToImages : ChatResult → ChatResult → Bool
  | .clientError m s, .clientError m' s' => decide (m = m' ∧ s = s')
  | .answer t r c src _ a, .answer t' r' c' src' _ a' =>
    decide (t = t' ∧ r = r' ∧ c = c' ∧ src = src' ∧ a = a')
  | _, _ => false

/-- Invariant of the `search_all_topics` loop state: `best_confidence` mirrors
the tracked match, and any tracked match stems from a catalog entry whose
fetched text is non-empty and whose verdict was relevant with exactly that
(positive) confidence. -/
def SearchInv (fetch : Fetcher) (oracle : Oracle) (q : String) (U : Catalog)
    (st : SearchState) : Prop :=
  (st.best_match = none → st.best_confidence = 0) ∧
  (∀ bm, st.best_match = some bm →
    st.best_confidence = bm.confidence ∧ 0 < bm.confidence ∧
    bm.content.text ≠ "" ∧
    ∃ e, e ∈ U ∧ bm.topic = e.1 ∧ bm.content = fetch (extract_page_id e.2) ∧
      (check_content_relevance oracle q bm.content).relevant = true ∧
      (check_content_relevance oracle q bm.content).confidence = bm.confidence)

/-- Demo fetcher: a page with text derived from the page id and no images. -/
def demoFetch : Fetcher := fun page_id => { text := "Doc " ++ page_id, images := [] }

/-- Demo fetcher with the same text as `demoFetch` but with an image. -/
def demoFetchImgs : Fetcher := fun page_id =>
  { text := "Doc " ++ page_id, images := [{ url := "http://img.example/x.png", caption := "diagram" }] }

/-- Demo oracle: every document is relevant with confidence 75. -/
def demoOracle75 : Oracle := fun _ _ => some { relevant := true, confidence := 75, reason := "demo" }

/-- Demo oracle: every document is relevant with confidence 80. -/
def demoOracle80 : Oracle := fun _ _ => some { relevant := true, confidence := 80, reason := "demo" }

/-- Demo oracle whose reply never parses. -/
def demoOracleNone : Oracle := fun _ _ => none

/-- Demo oracle: every document is judged not relevant (high confidence). -/
def demoOracleFalse : Oracle := fun _ _ => some { relevant := false, confidence := 95, reason := "demo" }

/-- Demo completion client. -/
def demoAsk : AskFn := fun _ => "generated answer"

/-- Two-topic demo catalog in catalog order A before B. -/
def demoCatalogAB : Catalog := [("A", "doc-1"), ("B", "doc-2")]

/-- The scenario catalog of spec §8. -/
def battCatalog : Catalog := [("Battery", "url-ending-id1"), ("Charger", "url-ending-id2")]

/-- The scenario query of spec §8. -/
def batteryQuery : String := "How do I maintain my battery?"

theorem lookup_mem {cat : Catalog} {t u : String} (h : cat.lookup t = some u) :
    (t, u) ∈ cat := by
  induction cat with
  | nil => simp [List.lookup] at h
  | cons e rest ih =>
    obtain ⟨k, v⟩ := e
    cases hb : (t == k) with
    | true =>
      have ht : t = k := eq_of_beq hb
      have hu : v = u := by simpa [List.lookup, hb] using h
      subst ht; subst hu
      exact List.mem_cons_self _ _
    | false =>
      have h' : List.lookup t rest = some u := by simpa [List.lookup, hb] using h
      exact List.mem_cons_of_mem _ (ih h')

theorem mem_keys_lookup {cat : Catalog} {t : String} (h : t ∈ cat.map Prod.fst) :
    ∃ u, cat.lookup t = some u ∧ (t, u) ∈ cat := by
  induction cat with
  | nil => simp at h
  | cons e rest ih =>
    obtain ⟨k, v⟩ := e
    by_cases hk : k = t
    · subst hk
      exact ⟨v, by simp [List.lookup], List.mem_cons_self _ _⟩
    · simp only [List.map_cons, List.mem_cons] at h
      rcases h with h | h
      · exact absurd h.symm hk
      · obtain ⟨u, hl, hm⟩ := ih h
        have hb : (t == k) = false := beq_eq_false_iff_ne.mpr (fun ht => hk ht.symm)
        exact ⟨u, by simp [List.lookup, hb, hl], List.mem_cons_of_mem _ hm⟩

theorem mem_find_topics_keys {cat : Catalog} {q t : String}
    (h : t ∈ find_relevant_topics cat q) : t ∈ cat.map Prod.fst := by
  simp only [find_relevant_topics, List.mem_map] at h ⊢
  obtain ⟨p, hp, rfl⟩ := h
  exact ⟨p, List.mem_of_mem_filter hp, rfl⟩

theorem phase1_search_some (fetch : Fetcher) (oracle : Oracle) (cat : Catalog) (q : String) :
    ∀ (l : List String) (t : String) (c : DocumentContent) (conf : Nat),
      phase1_search fetch oracle cat q l = some (t, c, conf) →
      t ∈ l ∧ c = fetch (extract_page_id ((cat.lookup t).getD "")) ∧
        c.text ≠ "" ∧
        (check_content_relevance oracle q c).relevant = true ∧
        (check_content_relevance oracle q c).confidence = conf ∧ 60 < conf := by
  intro l
  induction l with
  | nil => intro t c conf h; simp [phase1_search] at h
  | cons topic rest ih =>
    intro t c conf h
    simp only [phase1_search] at h
    split at h
    case isTrue htext =>
      split at h
      case isTrue hcond =>
        obtain ⟨h1, h2, h3⟩ : topic = t ∧ fetch (extract_page_id ((cat.lookup topic).getD "")) = c ∧
            (check_content_relevance oracle q (fetch (extract_page_id ((cat.lookup topic).getD "")))).confidence = conf := by
          simpa using h
        subst h1; subst h2
        exact ⟨List.mem_cons_self _ _, rfl, htext, hcond.1, h3, h3 ▸ hcond.2⟩
      case isFalse hcond =>
        obtain ⟨hmem, hrest⟩ := And.intro (ih t c conf h).1 (ih t c conf h).2
        exact ⟨List.mem_cons_of_mem _ hmem, hrest⟩
    case isFalse htext =>
      obtain ⟨hmem, hrest⟩ := And.intro (ih t c conf h).1 (ih t c conf h).2
      exact ⟨List.mem_cons_of_mem _ hmem, hrest⟩

theorem search_step_eq (fetch : Fetcher) (oracle : Oracle) (q : String)
    (st : SearchState) (e : String × String) :
    search_step fetch oracle q st e =
      if (fetch (extract_page_id e.2)).text ≠ "" then
        if (check_content_relevance oracle q (fetch (extract_page_id e.2))).relevant ∧
            st.best_confidence < (check_content_relevance oracle q (fetch (extract_page_id e.2))).confidence then
          { best_match := some ⟨e.1, fetch (extract_page_id e.2),
              (check_content_relevance oracle q (fetch (extract_page_id e.2))).confidence⟩,
            best_confidence := (check_content_relevance oracle q (fetch (extract_page_id e.2))).confidence,
            all_contents := st.all_contents ++ [(e.1, fetch (extract_page_id e.2))] }
        else { st with all_contents := st.all_contents ++ [(e.1, fetch (extract_page_id e.2))] }
      else st := rfl

theorem search_step_inv (fetch : Fetcher) (oracle : Oracle) (q : String) (U : Catalog)
    (st : SearchState) (e : String × String) (he : e ∈ U)
    (hinv : SearchInv fetch oracle q U st) :
    SearchInv fetch oracle q U (search_step fetch oracle q st e) := by
  rw [search_step_eq]
  split
  case isTrue htext =>
    split
    case isTrue hcond =>
      constructor
      · intro h; exact Option.noConfusion h
      · intro bm hbm
        have hbm' : (⟨e.1, fetch (extract_page_id e.2),
            (check_content_relevance oracle q (fetch (extract_page_id e.2))).confidence⟩ : BestMatch) = bm :=
          Option.some.inj hbm
        subst hbm'
        refine ⟨rfl, Nat.lt_of_le_of_lt (Nat.zero_le _) hcond.2, htext,
          e, he, rfl, rfl, hcond.1, rfl⟩
    case isFalse hcond => exact ⟨hinv.1, hinv.2⟩
  case isFalse htext => exact hinv

theorem search_foldl_inv (fetch : Fetcher) (oracle : Oracle) (q : String) (U : Catalog) :
    ∀ (l : List (String × String)) (st : SearchState),
      (∀ e, e ∈ l → e ∈ U) → SearchInv fetch oracle q U st →
      SearchInv fetch oracle q U (l.foldl (search_step fetch oracle q) st) := by
  intro l
  induction l with
  | nil => intro st _ hinv; exact hinv
  | cons e rest ih =>
    intro st hsub hinv
    rw [List.foldl_cons]
    exact ih _ (fun x hx => hsub x (List.mem_cons_of_mem _ hx))
      (search_step_inv fetch oracle q U st e (hsub e (List.mem_cons_self _ _)) hinv)

theorem search_all_topics_best_inv (fetch : Fetcher) (oracle : Oracle) (cat : Catalog)
    (q : String) :
    ∀ bm, (search_all_topics fetch oracle cat q).1 = some bm →
      0 < bm.confidence ∧ bm.content.text ≠ "" ∧
      ∃ e, e ∈ cat ∧ bm.topic = e.1 ∧ bm.content = fetch (extract_page_id e.2) ∧
        (check_content_relevance oracle q bm.content).relevant = true ∧
        (check_content_relevance oracle q bm.content).confidence = bm.confidence := by
  intro bm h
  have hinv := search_foldl_inv fetch oracle q cat cat ⟨none, 0, []⟩ (fun _ hx => hx)
    ⟨fun _ => rfl, fun bm h => Option.noConfusion h⟩
  have h' : (cat.foldl (search_step fetch oracle q) ⟨none, 0, []⟩).best_match = some bm := h
  have hfacts := hinv.2 bm h'
  exact ⟨hfacts.2.1, hfacts.2.2.1, hfacts.2.2.2⟩

theorem resolve_eq (fetch : Fetcher) (oracle : Oracle) (cat : Catalog) (q : String) :
    resolve fetch oracle cat q =
      match phase1_search fetch oracle cat q (find_relevant_topics cat q) with
      | some (t, c, conf) => .keywordMatch t c conf
      | none => phase2_result fetch oracle cat q := rfl

/-- C10: whenever the exhaustive phase-2 search returns a non-null best match,
its confidence is strictly greater than 0 (the accumulator starts at 0 and is
updated only on strictly greater confidence), and it stems from a catalog
entry whose oracle verdict had relevant true with exactly that confidence. -/
theorem phase2_best_match_positive (fetch : Fetcher) (oracle : Oracle) (cat : Catalog)
    (q : String) (bm : BestMatch)
    (h : (search_all_topics fetch oracle cat q).1 = some bm) :
    0 < bm.confidence ∧
    (check_content_relevance oracle q bm.content).relevant = true ∧
    (check_content_relevance oracle q bm.content).confidence = bm.confidence := by
  have hf := search_all_topics_best_inv fetch oracle cat q bm h
  obtain ⟨e, _, _, _, hrel, hconf⟩ := hf.2.2
  exact ⟨hf.1, hrel, hconf⟩

theorem phase2_best_match_positive_witness :
    0 < (⟨"A", ⟨"Doc 1", []⟩, 75⟩ : BestMatch).confidence ∧
    (check_content_relevance demoOracle75 "any question"
      (⟨"A", ⟨"Doc 1", []⟩, 75⟩ : BestMatch).content).relevant = true ∧
    (check_content_relevance demoOracle75 "any question"
      (⟨"A", ⟨"Doc 1", []⟩, 75⟩ : BestMatch).content).confidence =
      (⟨"A", ⟨"Doc 1", []⟩, 75⟩ : BestMatch).confidence :=
  phase2_best_match_positive demoFetch demoOracle75 demoCatalogAB "any question"
    ⟨"A", ⟨"Doc 1", []⟩, 75⟩ (by decide)

/-- C1: phase 2 tracks the single best relevant verdict by strictly-greater
confidence — a verdict whose confidence does not exceed the tracked best
(ties included) never displaces the tracked match, while a relevant verdict
strictly above it does — and on the synthetic catalog {A: doc1, B: doc2}
where both topics score relevant with confidence 75, the returned match is
topic A, the earlier in catalog order. -/
theorem phase2_tie_keeps_earliest :
    (∀ (fetch : Fetcher) (oracle : Oracle) (q : String) (st : SearchState) (e : String × String),
      (check_content_relevance oracle q (fetch (extract_page_id e.2))).confidence ≤ st.best_confidence →
      (search_step fetch oracle q st e).best_match = st.best_match ∧
      (search_step fetch oracle q st e).best_confidence = st.best_confidence) ∧
    (∀ (fetch : Fetcher) (oracle : Oracle) (q : String) (st : SearchState) (e : String × String),
      (fetch (extract_page_id e.2)).text ≠ "" →
      (check_content_relevance oracle q (fetch (extract_page_id e.2))).relevant = true →
      st.best_confidence < (check_content_relevance oracle q (fetch (extract_page_id e.2))).confidence →
      (search_step fetch oracle q st e).best_match =
        some ⟨e.1, fetch (extract_page_id e.2),
          (check_content_relevance oracle q (fetch (extract_page_id e.2))).confidence⟩) ∧
    Option.map BestMatch.topic (search_all_topics demoFetch demoOracle75 demoCatalogAB "any question").1 = some "A" := by
  refine ⟨?_, ?_, by decide⟩
  · intro fetch oracle q st e hle
    rw [search_step_eq]
    split
    · split
      case isTrue hcond => exact absurd hcond.2 (Nat.not_lt.mpr hle)
      case isFalse hcond => exact ⟨rfl, rfl⟩
    · exact ⟨rfl, rfl⟩
  · intro fetch oracle q st e htext hrel hlt
    rw [search_step_eq]
    split
    case isTrue h1 =>
      split
      case isTrue h2 => rfl
      case isFalse h2 => exact absurd ⟨by rw [hrel], hlt⟩ h2
    case isFalse h1 => exact absurd htext h1

theorem phase2_tie_keeps_earliest_witness :
    ((search_step demoFetch demoOracle75 "any question"
        ⟨some ⟨"A", ⟨"Doc 1", []⟩, 75⟩, 75, []⟩ ("B", "doc-2")).best_match =
      (⟨some ⟨"A", ⟨"Doc 1", []⟩, 75⟩, 75, []⟩ : SearchState).best_match ∧
     (search_step demoFetch demoOracle75 "any question"
        ⟨some ⟨"A", ⟨"Doc 1", []⟩, 75⟩, 75, []⟩ ("B", "doc-2")).best_confidence =
      (⟨some ⟨"A", ⟨"Doc 1", []⟩, 75⟩, 75, []⟩ : SearchState).best_confidence) ∧
    (search_step demoFetch demoOracle75 "any question" ⟨none, 0, []⟩ ("A", "doc-1")).best_match =
      some ⟨("A", "doc-1").1, demoFetch (extract_page_id ("A", "doc-1").2),
        (check_content_relevance demoOracle75 "any question"
          (demoFetch (extract_page_id ("A", "doc-1").2))).confidence⟩ :=
  ⟨phase2_tie_keeps_earliest.1 demoFetch demoOracle75 "any question" _ _ (by decide),
   phase2_tie_keeps_earliest.2.1 demoFetch demoOracle75 "any question" _ _
     (by decide) (by decide) (by decide)⟩

/-- C2: a keyword-match outcome always carries confidence strictly greater
than 60 and non-empty text content; a semantic-match outcome always carries
confidence strictly greater than 50 and non-empty text content — a topic
whose fetched text is empty is never selected, so the no-match outcome is the
only one that may carry empty content. -/
theorem match_outcome_thresholds (fetch : Fetcher) (oracle : Oracle) (cat : Catalog)
    (q : String) :
    (∀ t c conf, resolve fetch oracle cat q = .keywordMatch t c conf →
      60 < conf ∧ c.text ≠ "") ∧
    (∀ t c conf, resolve fetch oracle cat q = .semanticMatch t c conf →
      50 < conf ∧ c.text ≠ "") := by
  constructor
  · intro t c conf h
    rw [resolve_eq] at h
    cases hp : phase1_search fetch oracle cat q (find_relevant_topics cat q) with
    | some r =>
      obtain ⟨t', c', conf'⟩ := r
      rw [hp] at h
      have h2 : ResolutionOutcome.keywordMatch t' c' conf' = .keywordMatch t c conf := h
      injection h2 with ha hb hcc
      have hf := phase1_search_some fetch oracle cat q _ t' c' conf' hp
      rw [← hcc, ← hb]
      exact ⟨hf.2.2.2.2.2, hf.2.2.1⟩
    | none =>
      rw [hp] at h
      have h2 : phase2_result fetch oracle cat q = .keywordMatch t c conf := h
      cases hs : (search_all_topics fetch oracle cat q).1 with
      | some bm =>
        have h3 : (if 50 < bm.confidence then
            ResolutionOutcome.semanticMatch bm.topic bm.content bm.confidence
            else ResolutionOutcome.noMatch (cat.map Prod.fst)) = .keywordMatch t c conf := by
          unfold phase2_result at h2
          rw [hs] at h2
          exact h2
        split at h3 <;> simp at h3
      | none =>
        have h3 : ResolutionOutcome.noMatch (cat.map Prod.fst) = .keywordMatch t c conf := by
          unfold phase2_result at h2
          rw [hs] at h2
          exact h2
        simp at h3
  · intro t c conf h
    rw [resolve_eq] at h
    cases hp : phase1_search fetch oracle cat q (find_relevant_topics cat q) with
    | some r =>
      obtain ⟨t', c', conf'⟩ := r
      rw [hp] at h
      have h2 : ResolutionOutcome.keywordMatch t' c' conf' = .semanticMatch t c conf := h
      simp at h2
    | none =>
      rw [hp] at h
      have h2 : phase2_result fetch oracle cat q = .semanticMatch t c conf := h
      cases hs : (search_all_topics fetch oracle cat q).1 with
      | some bm =>
        have h3 : (if 50 < bm.confidence then
            ResolutionOutcome.semanticMatch bm.topic bm.content bm.confidence
            else ResolutionOutcome.noMatch (cat.map Prod.fst)) = .semanticMatch t c conf := by
          unfold phase2_result at h2
          rw [hs] at h2
          exact h2
        split at h3
        case isTrue hgt =>
          injection h3 with ha hb hcc
          have hf := search_all_topics_best_inv fetch oracle cat q bm hs
          rw [← hcc, ← hb]
          exact ⟨hgt, hf.2.1⟩
        case isFalse hgt => simp at h3
      | none =>
        have h3 : ResolutionOutcome.noMatch (cat.map Prod.fst) = .semanticMatch t c conf := by
          unfold phase2_result at h2
          rw [hs] at h2
          exact h2
        simp at h3

theorem match_outcome_thresholds_witness :
    60 < 80 ∧ (⟨"Doc id1", []⟩ : DocumentContent).text ≠ "" :=
  (match_outcome_thresholds demoFetch demoOracle80 battCatalog batteryQuery).1
    "Battery" ⟨"Doc id1", []⟩ 80 (by decide)

/-- C8: a missing or empty query is rejected immediately with the 400 client
error, for every fetcher, oracle, completion client and catalog — so no
candidate selection, fetch or oracle call can influence the outcome. -/
theorem empty_query_rejected (fetch : Fetcher) (oracle : Oracle) (ask : AskFn)
    (cat : Catalog) :
    chat fetch oracle ask cat none = .clientError "No query provided" 400 ∧
    chat fetch oracle ask cat (some "") = .clientError "No query provided" 400 :=
  ⟨rfl, rfl⟩

/-- C3: phase 1 is a first-acceptable-match short-circuit: on the first
candidate whose verdict is relevant with confidence above 60 the loop returns
that keyword match, whatever the remaining candidate list holds; and in the
spec §8 scenario (catalog {Battery, Charger}, query about battery
maintenance, Battery scored relevant at confidence 80) the resolver returns
KeywordMatch Battery at 80 for every fetcher and oracle agreeing only on the
Battery document — the oracle is never consulted on Charger. -/
theorem phase1_short_circuit :
    (∀ (fetch : Fetcher) (oracle : Oracle) (cat : Catalog) (q topic : String)
        (rest : List String),
      (fetch (extract_page_id ((cat.lookup topic).getD ""))).text ≠ "" →
      (check_content_relevance oracle q (fetch (extract_page_id ((cat.lookup topic).getD "")))).relevant = true →
      60 < (check_content_relevance oracle q (fetch (extract_page_id ((cat.lookup topic).getD "")))).confidence →
      phase1_search fetch oracle cat q (topic :: rest) =
        some (topic, fetch (extract_page_id ((cat.lookup topic).getD "")),
          (check_content_relevance oracle q (fetch (extract_page_id ((cat.lookup topic).getD "")))).confidence)) ∧
    (∀ (fetch : Fetcher) (oracle : Oracle) (bContent : DocumentContent) (r : String),
      bContent.text ≠ "" →
      fetch (extract_page_id "url-ending-id1") = bContent →
      oracle batteryQuery (bContent.text.take 1500) = some ⟨true, 80, r⟩ →
      resolve fetch oracle battCatalog batteryQuery = .keywordMatch "Battery" bContent 80) := by
  constructor
  · intro fetch oracle cat q topic rest htext hrel hconf
    simp only [phase1_search]
    split
    case isTrue h1 =>
      split
      case isTrue h2 => rfl
      case isFalse h2 => exact absurd ⟨hrel, hconf⟩ h2
    case isFalse h1 => exact absurd htext h1
  · intro fetch oracle bContent r htext hfetch ho
    have hcand : find_relevant_topics battCatalog batteryQuery = ["Battery"] := by decide
    have hlook : (battCatalog.lookup "Battery").getD "" = "url-ending-id1" := by decide
    have hcheck : check_content_relevance oracle batteryQuery bContent = ⟨true, 80, r⟩ := by
      simp only [check_content_relevance]
      rw [ho]
    have hp : phase1_search fetch oracle battCatalog batteryQuery ["Battery"] =
        some ("Battery", bContent, 80) := by
      simp only [phase1_search]
      rw [hlook, hfetch, hcheck]
      rw [if_pos htext, if_pos ⟨rfl, by norm_num⟩]
    rw [resolve_eq, hcand, hp]

theorem phase1_short_circuit_witness :
    resolve demoFetch demoOracle80 battCatalog batteryQuery =
      .keywordMatch "Battery" ⟨"Doc id1", []⟩ 80 :=
  phase1_short_circuit.2 demoFetch demoOracle80 ⟨"Doc id1", []⟩ "demo"
    (by decide) (by decide) (by decide)

/-- C4: the candidate selector returns exactly the topics whose lower-cased
name occurs as a substring of the lower-cased query, in catalog order; for a
query matching no topic name it returns the empty sequence, which is not an
error and makes resolution proceed directly to the exhaustive phase-2
search. -/
theorem candidate_selector_characterization :
    (∀ (cat : Catalog) (q : String),
      find_relevant_topics cat q =
        (cat.map Prod.fst).filter
          (fun t => charsContain (charsLower t.toList) (charsLower q.toList))) ∧
    (∀ (cat : Catalog) (q : String),
      (∀ e, e ∈ cat → charsContain (charsLower e.1.toList) (charsLower q.toList) = false) →
      find_relevant_topics cat q = []) ∧
    (∀ (fetch : Fetcher) (oracle : Oracle) (cat : Catalog) (q : String),
      find_relevant_topics cat q = [] →
      resolve fetch oracle cat q = phase2_result fetch oracle cat q) := by
  refine ⟨?_, ?_, ?_⟩
  · intro cat q
    induction cat with
    | nil => rfl
    | cons e rest ih =>
      simp only [find_relevant_topics] at ih ⊢
      simp only [List.map_cons, List.filter_cons]
      cases hc : charsContain (charsLower e.1.toList) (charsLower q.toList) with
      | true => simp [hc]; exact ih
      | false => simp [hc]; exact ih
  · intro cat q
    induction cat with
    | nil => intro _; rfl
    | cons e rest ih =>
      intro hall
      have hrest := ih (fun x hx => hall x (List.mem_cons_of_mem _ hx))
      have he := hall e (List.mem_cons_self _ _)
      simp only [find_relevant_topics] at hrest ⊢
      simp only [List.filter_cons, he]
      simpa using hrest
  · intro fetch oracle cat q h
    rw [resolve_eq, h]
    rfl

theorem candidate_selector_characterization_witness :
    find_relevant_topics battCatalog "no relevant keywords here" = [] ∧
    resolve demoFetch demoOracle80 battCatalog "no relevant keywords here" =
      phase2_result demoFetch demoOracle80 battCatalog "no relevant keywords here" :=
  ⟨candidate_selector_characterization.2.1 battCatalog "no relevant keywords here" (by decide),
   candidate_selector_characterization.2.2 demoFetch demoOracle80 battCatalog
     "no relevant keywords here" (by decide)⟩

/-- C5 counterexample: on an unparseable oracle reply the degraded verdict's
reason string is not "unparseable" — the code uses a different literal. -/
theorem oracle_degrade_reason_counterexample :
    check_content_relevance demoOracleNone "any question" ⟨"some document text", []⟩ ≠
      { relevant := false, confidence := 0, reason := "unparseable" } := by decide

/-- C5 (amended): when the oracle fails to produce a parseable verdict, the
scoring operation never raises — it returns exactly the degraded verdict
{relevant := false, confidence := 0, reason := "Failed to parse relevance"}
(the code's literal reason string, not "unparseable"), and the cascade
continues: the phase-1 loop proceeds to the next candidate and a phase-2
step leaves the tracked best match unchanged. -/
theorem oracle_degrade_verdict (oracle : Oracle) (q : String) (content : DocumentContent)
    (hfail : oracle q (content.text.take 1500) = none) :
    check_content_relevance oracle q content =
      { relevant := false, confidence := 0, reason := "Failed to parse relevance" } ∧
    (∀ (fetch : Fetcher) (cat : Catalog) (topic : String) (rest : List String),
      fetch (extract_page_id ((cat.lookup topic).getD "")) = content →
      phase1_search fetch oracle cat q (topic :: rest) =
        phase1_search fetch oracle cat q rest) ∧
    (∀ (fetch : Fetcher) (st : SearchState) (e : String × String),
      fetch (extract_page_id e.2) = content →
      (search_step fetch oracle q st e).best_match = st.best_match ∧
      (search_step fetch oracle q st e).best_confidence = st.best_confidence) := by
  have hdeg : check_content_relevance oracle q content =
      { relevant := false, confidence := 0, reason := "Failed to parse relevance" } := by
    simp only [check_content_relevance]
    rw [hfail]
  refine ⟨hdeg, ?_, ?_⟩
  · intro fetch cat topic rest hf
    simp only [phase1_search]
    rw [hf, hdeg]
    split
    case isTrue h1 => simp
    case isFalse h1 => rfl
  · intro fetch st e hf
    rw [search_step_eq, hf, hdeg]
    split
    case isTrue h1 =>
      split
      case isTrue h2 => exact absurd h2.1 (by decide)
      case isFalse h2 => exact ⟨rfl, rfl⟩
    case isFalse h1 => exact ⟨rfl, rfl⟩

theorem oracle_degrade_verdict_witness :
    check_content_relevance demoOracleNone "any question" ⟨"some document text", []⟩ =
      { relevant := false, confidence := 0, reason := "Failed to parse relevance" } :=
  (oracle_degrade_verdict demoOracleNone "any question" ⟨"some document text", []⟩ rfl).1

/-- C6: when no catalog entry has a relevant verdict (or none with relevant
true exceeds confidence 50), resolution returns NoMatch carrying the full
catalog key list in order, and the chat handler still produces an answer via
the fallback prompt — no resolved topic, confidence 0, provenance no_match,
empty image list — rather than an error. -/
theorem all_irrelevant_returns_no_match (fetch : Fetcher) (oracle : Oracle) (ask : AskFn)
    (cat : Catalog) (q : String) (hq : q ≠ "")
    (hall : ∀ e, e ∈ cat →
      (check_content_relevance oracle q (fetch (extract_page_id e.2))).relevant = false ∨
      (check_content_relevance oracle q (fetch (extract_page_id e.2))).confidence ≤ 50) :
    resolve fetch oracle cat q = .noMatch (cat.map Prod.fst) ∧
    chat fetch oracle ask cat (some q) =
      .answer none (ask (fallback_prompt q (cat.map Prod.fst))) 0 "no_match" []
        (some (cat.map Prod.fst)) := by
  have hres : resolve fetch oracle cat q = .noMatch (cat.map Prod.fst) := by
    rw [resolve_eq]
    cases hp : phase1_search fetch oracle cat q (find_relevant_topics cat q) with
    | some r =>
      obtain ⟨t, c, conf⟩ := r
      have hf := phase1_search_some fetch oracle cat q _ t c conf hp
      obtain ⟨u, hl, hm⟩ := mem_keys_lookup (mem_find_topics_keys hf.1)
      have hc : c = fetch (extract_page_id u) := by rw [hf.2.1, hl]; rfl
      have hu : (check_content_relevance oracle q (fetch (extract_page_id u))).relevant = false ∨
          (check_content_relevance oracle q (fetch (extract_page_id u))).confidence ≤ 50 :=
        hall (t, u) hm
      rw [← hc] at hu
      rcases hu with hrel | hle
      · rw [hf.2.2.2.1] at hrel
        exact absurd hrel (by simp)
      · rw [hf.2.2.2.2.1] at hle
        have h60 := hf.2.2.2.2.2
        omega
    | none =>
      show phase2_result fetch oracle cat q = ResolutionOutcome.noMatch (cat.map Prod.fst)
      unfold phase2_result
      cases hs : (search_all_topics fetch oracle cat q).1 with
      | some bm =>
        have hinv := search_all_topics_best_inv fetch oracle cat q bm hs
        obtain ⟨e, hmem, _, hcont, hrel, hconf⟩ := hinv.2.2
        have hu := hall e hmem
        rw [← hcont] at hu
        rcases hu with h1 | h1
        · rw [hrel] at h1
          exact absurd h1 (by simp)
        · rw [hconf] at h1
          show (if 50 < bm.confidence then
              ResolutionOutcome.semanticMatch bm.topic bm.content bm.confidence
              else ResolutionOutcome.noMatch (cat.map Prod.fst)) =
            ResolutionOutcome.noMatch (cat.map Prod.fst)
          rw [if_neg (Nat.not_lt.mpr h1)]
      | none => rfl
  refine ⟨hres, ?_⟩
  simp only [chat]
  rw [if_neg hq, hres]
  rfl

theorem all_irrelevant_returns_no_match_witness :
    resolve demoFetch demoOracleFalse battCatalog "anything else" =
      .noMatch (battCatalog.map Prod.fst) ∧
    chat demoFetch demoOracleFalse demoAsk battCatalog (some "anything else") =
      .answer none (demoAsk (fallback_prompt "anything else" (battCatalog.map Prod.fst)))
        0 "no_match" [] (some (battCatalog.map Prod.fst)) :=
  all_irrelevant_returns_no_match demoFetch demoOracleFalse demoAsk battCatalog
    "anything else" (by decide) (by decide)

theorem splitOnDash_ne_nil (l : List Char) : splitOnDash l ≠ [] := by
  cases l with
  | nil => simp [splitOnDash]
  | cons c cs =>
    simp only [splitOnDash]
    split
    · simp
    · split <;> simp

theorem splitOnDash_len2 : ∀ (xs ys : List Char), 2 ≤ (splitOnDash (xs ++ '-' :: ys)).length := by
  intro xs
  induction xs with
  | nil =>
    intro ys
    rw [List.nil_append]
    simp only [splitOnDash, if_true]
    cases h : splitOnDash ys with
    | nil => exact absurd h (splitOnDash_ne_nil ys)
    | cons a l => simp only [List.length_cons]; omega
  | cons c cs ih =>
    intro ys
    rw [List.cons_append]
    by_cases hc : c = '-'
    · subst hc
      simp only [splitOnDash, if_true]
      have h2 := ih ys
      simp only [List.length_cons]
      omega
    · simp only [splitOnDash, if_neg hc]
      have h2 := ih ys
      cases h : splitOnDash (cs ++ '-' :: ys) with
      | nil => exact absurd h (splitOnDash_ne_nil _)
      | cons p ps =>
        rw [h] at h2
        simpa using h2

theorem splitOnDash_last_append : ∀ (xs ys : List Char),
    (splitOnDash (xs ++ '-' :: ys)).getLastD [] = (splitOnDash ys).getLastD [] := by
  intro xs
  induction xs with
  | nil =>
    intro ys
    rw [List.nil_append]
    simp only [splitOnDash, if_true]
    rw [List.getLastD_cons]
  | cons c cs ih =>
    intro ys
    rw [List.cons_append]
    by_cases hc : c = '-'
    · subst hc
      simp only [splitOnDash, if_true]
      rw [List.getLastD_cons]
      exact ih ys
    · simp only [splitOnDash, if_neg hc]
      cases h : splitOnDash (cs ++ '-' :: ys) with
      | nil => exact absurd h (splitOnDash_ne_nil _)
      | cons p ps =>
        have hlen := splitOnDash_len2 cs ys
        rw [h] at hlen
        have hps : ps ≠ [] := by
          cases ps with
          | nil => simp at hlen
          | cons a l => simp
        have ihy := ih ys
        rw [h] at ihy
        rw [List.getLastD_cons] at ihy
        show ((c :: p) :: ps).getLastD [] = (splitOnDash ys).getLastD []
        rw [List.getLastD_cons]
        obtain ⟨a, l, rfl⟩ : ∃ a l, ps = a :: l := by
          cases ps with
          | nil => exact absurd rfl hps
          | cons a l => exact ⟨a, l, rfl⟩
        rw [List.getLastD_cons] at ihy ⊢
        exact ihy

theorem splitOnDash_no_dash : ∀ (l : List Char), '-' ∉ l → splitOnDash l = [l] := by
  intro l
  induction l with
  | nil => intro _; rfl
  | cons c cs ih =>
    intro h
    have hc : c ≠ '-' := fun hh => h (hh ▸ List.mem_cons_self _ _)
    have hcs : '-' ∉ cs := fun hh => h (List.mem_cons_of_mem _ hh)
    simp only [splitOnDash, if_neg hc]
    rw [ih hcs]

/-- C7 counterexample: on an input containing no hyphen the derivation
returns the whole input unchanged, not the empty string. -/
theorem page_id_no_hyphen_counterexample :
    extract_page_id "nohyphen" = "nohyphen" ∧ extract_page_id "nohyphen" ≠ "" := by decide

/-- C7 (amended): document-identifier derivation maps a reference string to
its trailing segment after the last hyphen — on the round-trip example it
yields "abc123def456" — and when the input contains no hyphen it returns the
whole input string unchanged (not the empty string). -/
theorem page_id_derivation :
    extract_page_id "https://example.com/Battery-Guide-abc123def456" = "abc123def456" ∧
    (∀ (xs ys : List Char), '-' ∉ ys →
      extract_page_id (String.mk (xs ++ '-' :: ys)) = String.mk ys) ∧
    (∀ (l : List Char), '-' ∉ l → extract_page_id (String.mk l) = String.mk l) := by
  refine ⟨by decide, ?_, ?_⟩
  · intro xs ys hys
    unfold extract_page_id
    rw [show (String.mk (xs ++ '-' :: ys)).toList = xs ++ '-' :: ys from rfl]
    rw [splitOnDash_last_append, splitOnDash_no_dash ys hys]
    rfl
  · intro l hl
    unfold extract_page_id
    rw [show (String.mk l).toList = l from rfl, splitOnDash_no_dash l hl]
    rfl

theorem page_id_derivation_witness :
    extract_page_id (String.mk (['i', 'd'] ++ '-' :: ['x', 'y'])) = String.mk ['x', 'y'] :=
  page_id_derivation.2.1 ['i', 'd'] ['x', 'y'] (by decide)

theorem eqUpToImages_refl (r : ChatResult) : eqUpToImages r r = true := by
  cases r <;> simp [eqUpToImages]

theorem check_text_eq (oracle : Oracle) (q : String) {c₁ c₂ : DocumentContent}
    (h : c₁.text = c₂.text) :
    check_content_relevance oracle q c₁ = check_content_relevance oracle q c₂ := by
  simp only [check_content_relevance, h]

theorem phase1_search_text_eq (fetch₁ fetch₂ : Fetcher) (oracle : Oracle) (cat : Catalog)
    (q : String) (hf : ∀ pid, (fetch₁ pid).text = (fetch₂ pid).text) :
    ∀ l : List String,
      (phase1_search fetch₁ oracle cat q l = none ∧
        phase1_search fetch₂ oracle cat q l = none) ∨
      (∃ t c₁ c₂ conf, phase1_search fetch₁ oracle cat q l = some (t, c₁, conf) ∧
        phase1_search fetch₂ oracle cat q l = some (t, c₂, conf) ∧ c₁.text = c₂.text) := by
  intro l
  induction l with
  | nil => exact Or.inl ⟨rfl, rfl⟩
  | cons topic rest ih =>
    have htext := hf (extract_page_id ((cat.lookup topic).getD ""))
    have hcheck := check_text_eq oracle q htext
    simp only [phase1_search]
    by_cases h1 : (fetch₁ (extract_page_id ((cat.lookup topic).getD ""))).text ≠ ""
    · have h2 : (fetch₂ (extract_page_id ((cat.lookup topic).getD ""))).text ≠ "" := by
        rw [← htext]; exact h1
      rw [if_pos h1, if_pos h2]
      by_cases hcond :
          (check_content_relevance oracle q (fetch₁ (extract_page_id ((cat.lookup topic).getD "")))).relevant = true ∧
          60 < (check_content_relevance oracle q (fetch₁ (extract_page_id ((cat.lookup topic).getD "")))).confidence
      · rw [if_pos hcond, if_pos (show _ ∧ _ by rw [← hcheck]; exact hcond)]
        refine Or.inr ⟨topic, fetch₁ (extract_page_id ((cat.lookup topic).getD "")),
          fetch₂ (extract_page_id ((cat.lookup topic).getD "")),
          (check_content_relevance oracle q (fetch₁ (extract_page_id ((cat.lookup topic).getD "")))).confidence,
          rfl, ?_, htext⟩
        rw [hcheck]
      · rw [if_neg hcond, if_neg (show ¬(_ ∧ _) by rw [← hcheck]; exact hcond)]
        exact ih
    · have h2 : ¬(fetch₂ (extract_page_id ((cat.lookup topic).getD ""))).text ≠ "" := by
        rw [← htext]; exact h1
      rw [if_neg h1, if_neg h2]
      exact ih

theorem search_step_text_eq (fetch₁ fetch₂ : Fetcher) (oracle : Oracle) (q : String)
    (hf : ∀ pid, (fetch₁ pid).text = (fetch₂ pid).text)
    (st₁ st₂ : SearchState) (e : String × String)
    (h1 : bestKey st₁.best_match = bestKey st₂.best_match)
    (h2 : st₁.best_confidence = st₂.best_confidence) :
    bestKey (search_step fetch₁ oracle q st₁ e).best_match =
      bestKey (search_step fetch₂ oracle q st₂ e).best_match ∧
    (search_step fetch₁ oracle q st₁ e).best_confidence =
      (search_step fetch₂ oracle q st₂ e).best_confidence := by
  rw [search_step_eq, search_step_eq]
  have htext := hf (extract_page_id e.2)
  have hcheck := check_text_eq oracle q htext
  by_cases ht : (fetch₁ (extract_page_id e.2)).text ≠ ""
  · have ht2 : (fetch₂ (extract_page_id e.2)).text ≠ "" := by rw [← htext]; exact ht
    rw [if_pos ht, if_pos ht2]
    by_cases hcond :
        (check_content_relevance oracle q (fetch₁ (extract_page_id e.2))).relevant = true ∧
        st₁.best_confidence < (check_content_relevance oracle q (fetch₁ (extract_page_id e.2))).confidence
    · rw [if_pos hcond, if_pos (show _ ∧ _ by rw [← hcheck, ← h2]; exact hcond)]
      constructor
      · simp only [bestKey]
        rw [htext, hcheck]
      · show (check_content_relevance oracle q (fetch₁ (extract_page_id e.2))).confidence =
          (check_content_relevance oracle q (fetch₂ (extract_page_id e.2))).confidence
        rw [hcheck]
    · rw [if_neg hcond, if_neg (show ¬(_ ∧ _) by rw [← hcheck, ← h2]; exact hcond)]
      exact ⟨h1, h2⟩
  · have ht2 : ¬(fetch₂ (extract_page_id e.2)).text ≠ "" := by rw [← htext]; exact ht
    rw [if_neg ht, if_neg ht2]
    exact ⟨h1, h2⟩

theorem search_foldl_text_eq (fetch₁ fetch₂ : Fetcher) (oracle : Oracle) (q : String)
    (hf : ∀ pid, (fetch₁ pid).text = (fetch₂ pid).text) :
    ∀ (l : List (String × String)) (st₁ st₂ : SearchState),
      bestKey st₁.best_match = bestKey st₂.best_match →
      st₁.best_confidence = st₂.best_confidence →
      bestKey (l.foldl (search_step fetch₁ oracle q) st₁).best_match =
        bestKey (l.foldl (search_step fetch₂ oracle q) st₂).best_match ∧
      (l.foldl (search_step fetch₁ oracle q) st₁).best_confidence =
        (l.foldl (search_step fetch₂ oracle q) st₂).best_confidence := by
  intro l
  induction l with
  | nil => intro st₁ st₂ h1 h2; exact ⟨h1, h2⟩
  | cons e rest ih =>
    intro st₁ st₂ h1 h2
    rw [List.foldl_cons, List.foldl_cons]
    have hstep := search_step_text_eq fetch₁ fetch₂ oracle q hf st₁ st₂ e h1 h2
    exact ih _ _ hstep.1 hstep.2

/-- C9: the grounding prompt is a function only of the winning topic name,
the first 7000 characters of the winning document's text, and the query: the
prompt constructors take neither the verdict's confidence nor the image list
(confidence and images travel only to the response boundary), prompts agree
whenever the truncated texts agree, and the entire chat response apart from
the returned image list is unchanged when the two fetchers agree on document
texts while differing arbitrarily in image references. -/
theorem grounding_prompt_blind :
    (∀ (topic q : String) (c₁ c₂ : DocumentContent),
      c₁.text.take 7000 = c₂.text.take 7000 →
      keyword_prompt topic c₁ q = keyword_prompt topic c₂ q ∧
      semantic_prompt topic c₁ q = semantic_prompt topic c₂ q) ∧
    (∀ (ask : AskFn) (q topic : String) (c : DocumentContent) (conf : Nat),
      compose ask q (.keywordMatch topic c conf) =
        .answer (some topic) (ask (keyword_prompt topic c q)) conf "keyword_match"
          c.images none ∧
      compose ask q (.semanticMatch topic c conf) =
        .answer (some topic) (ask (semantic_prompt topic c q)) conf "semantic_search"
          c.images none) ∧
    (∀ (fetch₁ fetch₂ : Fetcher) (oracle : Oracle) (ask : AskFn) (cat : Catalog)
        (query : Option String),
      (∀ pid, (fetch₁ pid).text = (fetch₂ pid).text) →
      eqUpToImages (chat fetch₁ oracle ask cat query) (chat fetch₂ oracle ask cat query) = true) := by
  refine ⟨?_, ?_, ?_⟩
  · intro topic q c₁ c₂ h
    constructor
    · unfold keyword_prompt
      rw [h]
    · unfold semantic_prompt
      rw [h]
  · intro ask q topic c conf
    exact ⟨rfl, rfl⟩
  · intro fetch₁ fetch₂ oracle ask cat query hf
    cases query with
    | none =>
      have e₁ : chat fetch₁ oracle ask cat none = .clientError "No query provided" 400 := rfl
      have e₂ : chat fetch₂ oracle ask cat none = .clientError "No query provided" 400 := rfl
      rw [e₁, e₂]
      decide
    | some q =>
      by_cases hq : q = ""
      · subst hq
        have e₁ : chat fetch₁ oracle ask cat (some "") = .clientError "No query provided" 400 := rfl
        have e₂ : chat fetch₂ oracle ask cat (some "") = .clientError "No query provided" 400 := rfl
        rw [e₁, e₂]
        decide
      · simp only [chat]
        rw [if_neg hq, if_neg hq]
        rw [resolve_eq, resolve_eq]
        rcases phase1_search_text_eq fetch₁ fetch₂ oracle cat q hf (find_relevant_topics cat q) with
          ⟨hp₁, hp₂⟩ | ⟨t, c₁, c₂, conf, hp₁, hp₂, htext⟩
        · rw [hp₁, hp₂]
          show eqUpToImages (compose ask q (phase2_result fetch₁ oracle cat q))
            (compose ask q (phase2_result fetch₂ oracle cat q)) = true
          have hsearch := search_foldl_text_eq fetch₁ fetch₂ oracle q hf cat
            ⟨none, 0, []⟩ ⟨none, 0, []⟩ rfl rfl
          have hb : bestKey (search_all_topics fetch₁ oracle cat q).1 =
              bestKey (search_all_topics fetch₂ oracle cat q).1 := hsearch.1
          unfold phase2_result
          cases hm₁ : (search_all_topics fetch₁ oracle cat q).1 with
          | none =>
            cases hm₂ : (search_all_topics fetch₂ oracle cat q).1 with
            | none => exact eqUpToImages_refl _
            | some bm₂ => rw [hm₁, hm₂] at hb; simp [bestKey] at hb
          | some bm₁ =>
            cases hm₂ : (search_all_topics fetch₂ oracle cat q).1 with
            | none => rw [hm₁, hm₂] at hb; simp [bestKey] at hb
            | some bm₂ =>
              rw [hm₁, hm₂] at hb
              simp only [bestKey, Option.some.injEq, Prod.mk.injEq] at hb
              obtain ⟨htop, htxt, hconf⟩ := hb
              show eqUpToImages
                (compose ask q (if 50 < bm₁.confidence then
                  ResolutionOutcome.semanticMatch bm₁.topic bm₁.content bm₁.confidence
                  else ResolutionOutcome.noMatch (cat.map Prod.fst)))
                (compose ask q (if 50 < bm₂.confidence then
                  ResolutionOutcome.semanticMatch bm₂.topic bm₂.content bm₂.confidence
                  else ResolutionOutcome.noMatch (cat.map Prod.fst))) = true
              by_cases hgt : 50 < bm₁.confidence
              · rw [if_pos hgt, if_pos (hconf ▸ hgt)]
                have hprompt : semantic_prompt bm₂.topic bm₁.content q =
                    semantic_prompt bm₂.topic bm₂.content q := by
                  unfold semantic_prompt
                  rw [htxt]
                simp [compose, eqUpToImages, hprompt, htop, hconf]
              · rw [if_neg hgt, if_neg (hconf ▸ hgt)]
                exact eqUpToImages_refl _
        · rw [hp₁, hp₂]
          show eqUpToImages (compose ask q (.keywordMatch t c₁ conf))
            (compose ask q (.keywordMatch t c₂ conf)) = true
          have hprompt : keyword_prompt t c₁ q = keyword_prompt t c₂ q := by
            unfold keyword_prompt
            rw [htext]
          simp [compose, eqUpToImages, hprompt]

theorem grounding_prompt_blind_witness :
    eqUpToImages
      (chat demoFetch demoOracle80 demoAsk battCatalog (some batteryQuery))
      (chat demoFetchImgs demoOracle80 demoAsk battCatalog (some batteryQuery)) = true :=
  grounding_prompt_blind.2.2 demoFetch demoFetchImgs demoOracle80 demoAsk battCatalog
    (some batteryQuery) (fun _ => rfl)
